import Mathlib

/-!
Verification of the mock text-to-SQL pipeline in `text_to_sql_app.py`.

The file embeds the two pure mock functions (`mock_llm_query`,
`mock_execute_query`) and the session-state transitions of `main`
(the "generate" and "clear" button handlers) as Lean definitions,
then proves the spec's claims about them.
-/

/-- Python substring membership `sub in s` on character lists:
`sub` occurs contiguously somewhere in `s`. -/
def listContainsSub (s sub : List Char) : Bool :=
  (List.range (s.length + 1)).any (fun i => decide (((s.drop i).take sub.length) = sub))

/-- Python's `sub in s` for strings. -/
def strContains (s sub : String) : Bool :=
  listContainsSub s.data sub.data

/-- Python's `s.lower()`: lowercase every character (kernel-computable,
unlike the library `String.toLower` whose recursion is well-founded). -/
def pyLower (s : String) : String :=
  ⟨s.data.map Char.toLower⟩

/-- `mock_llm_query` from `text_to_sql_app.py` (lines 92-108): keyword-pair
rules in source order over the lowercased question, with the templated
fallback `SELECT * FROM <first table> LIMIT 10;` (or the literal
`table_name` when no table is selected). The `time.sleep` latency
simulation has no observable effect on the returned value. -/
def mock_llm_query (text_query : String) (selected_tables : List String)
    (database : String) : String :=
  let query_lower := pyLower text_query
  if strContains query_lower "users" && strContains query_lower "count" then
    "SELECT COUNT(*) as total_users FROM users WHERE is_active = TRUE;"
  else if strContains query_lower "products" && strContains query_lower "price" then
    "SELECT name, price FROM products WHERE price > 100 ORDER BY price DESC;"
  else if strContains query_lower "orders" && strContains query_lower "total" then
    "SELECT SUM(total_amount) as total_revenue FROM orders WHERE status = \x27completed\x27;"
  else if strContains query_lower "employees" && strContains query_lower "salary" then
    "SELECT first_name, last_name, salary FROM employees WHERE salary > 50000 ORDER BY salary DESC;"
  else
    "SELECT * FROM " ++ (selected_tables.head?.getD "table_name") ++ " LIMIT 10;"

/-- A cell of a mock result table: the Python data frames hold integers,
strings, booleans and decimal numbers (modelled exactly as rationals). -/
inductive Value where
  | i (n : Int)
  | s (v : String)
  | b (v : Bool)
  | q (v : ℚ)
deriving DecidableEq, Repr

/-- A column-oriented data frame: ordered columns, each a name with its
list of cell values (mirroring the `pd.DataFrame({...})` literals). -/
structure DataFrame where
  cols : List (String × List Value)
deriving DecidableEq, Repr

/-- Number of columns, as `len(df.columns)`. -/
def DataFrame.numCols (d : DataFrame) : Nat := d.cols.length

/-- Number of rows, as `len(df)`: the length of the first column
(0 for an empty frame). -/
def DataFrame.numRows (d : DataFrame) : Nat :=
  (d.cols.head?.map (fun c => c.2.length)).getD 0

/-- `mock_execute_query` from `text_to_sql_app.py` (lines 110-146):
first-match-wins substring rules over the lowercased SQL string, with the
generic 5-row sample table as fallback. The database argument is never
read; the `time.sleep` latency simulation has no observable effect. -/
def mock_execute_query (sql_query : String) (database : String) : DataFrame :=
  let query_lower := pyLower sql_query
  if strContains query_lower "count(*)" && strContains query_lower "users" then
    ⟨[("total_users", [.i 1247])]⟩
  else if strContains query_lower "name, price" && strContains query_lower "products" then
    ⟨[("name", [.s "Premium Laptop", .s "Gaming Monitor", .s "Wireless Headphones",
                .s "Smart Watch", .s "Tablet Pro"]),
      ("price", [.q 1299.99, .q 849.99, .q 299.99, .q 399.99, .q 899.99])]⟩
  else if strContains query_lower "sum(total_amount)" && strContains query_lower "orders" then
    ⟨[("total_revenue", [.q 2845672.50])]⟩
  else if strContains query_lower "first_name, last_name, salary" &&
      strContains query_lower "employees" then
    ⟨[("first_name", [.s "Alice", .s "Bob", .s "Carol", .s "David", .s "Emma"]),
      ("last_name", [.s "Johnson", .s "Smith", .s "Brown", .s "Wilson", .s "Davis"]),
      ("salary", [.q 85000.00, .q 92000.00, .q 78000.00, .q 105000.00, .q 88000.00])]⟩
  else if strContains query_lower "users" then
    ⟨[("id", [.i 1, .i 2, .i 3, .i 4, .i 5]),
      ("username", [.s "alice_j", .s "bob_smith", .s "carol_b", .s "david_w", .s "emma_d"]),
      ("email", [.s "alice@email.com", .s "bob@email.com", .s "carol@email.com",
                 .s "david@email.com", .s "emma@email.com"]),
      ("created_at", [.s "2024-01-15", .s "2024-02-20", .s "2024-03-10",
                      .s "2024-04-05", .s "2024-05-12"]),
      ("is_active", [.b true, .b true, .b false, .b true, .b true])]⟩
  else
    ⟨[("id", [.i 1, .i 2, .i 3, .i 4, .i 5]),
      ("sample_column", [.s "Data 1", .s "Data 2", .s "Data 3", .s "Data 4", .s "Data 5"]),
      ("value", [.i 100, .i 200, .i 300, .i 400, .i 500])]⟩

/-- A Python list subscript `l[i]`: raises `IndexError` when out of range. -/
def pySubscript (l : List String) (i : Nat) : Except String String :=
  match l.get? i with
  | some x => Except.ok x
  | none => Except.error "IndexError: list index out of range"

/-- `mock_llm_query` with its one potentially raising operation — the
subscript `selected_tables[0]` in the fallback f-string — made explicit
as an `Except`, guarded (as in the source) by the truthiness test
`if selected_tables`. -/
def mock_llm_queryE (text_query : String) (selected_tables : List String)
    (database : String) : Except String String :=
  let query_lower := pyLower text_query
  if strContains query_lower "users" && strContains query_lower "count" then
    Except.ok "SELECT COUNT(*) as total_users FROM users WHERE is_active = TRUE;"
  else if strContains query_lower "products" && strContains query_lower "price" then
    Except.ok "SELECT name, price FROM products WHERE price > 100 ORDER BY price DESC;"
  else if strContains query_lower "orders" && strContains query_lower "total" then
    Except.ok "SELECT SUM(total_amount) as total_revenue FROM orders WHERE status = \x27completed\x27;"
  else if strContains query_lower "employees" && strContains query_lower "salary" then
    Except.ok "SELECT first_name, last_name, salary FROM employees WHERE salary > 50000 ORDER BY salary DESC;"
  else
    (if selected_tables.isEmpty then Except.ok "table_name"
     else pySubscript selected_tables 0).map
      (fun t => "SELECT * FROM " ++ t ++ " LIMIT 10;")

/-- `mock_execute_query` as an `Except`: its body consists only of
non-raising dictionary/data-frame literals, so every branch is `ok`. -/
def mock_execute_queryE (sql_query : String) (database : String) :
    Except String DataFrame :=
  Except.ok (mock_execute_query sql_query database)

/-- One record of `st.session_state.query_history` (lines 257-262). -/
structure HistoryEntry where
  timestamp : String
  question : String
  sql : String
  tables : List String
deriving DecidableEq, Repr

/-- The per-session state of `main`: `generated_sql`, `query_results`
and `query_history` (lines 154-159). -/
structure SessionState where
  generated_sql : String
  query_results : Option DataFrame
  query_history : List HistoryEntry
deriving DecidableEq, Repr

/-- The "Generate SQL" button handler (lines 249-262): compute the SQL,
store it, reset the results, and append a history record whose `tables`
field is `selected_tables.copy()` — a snapshot of the selection. -/
def generateAction (st : SessionState) (text_query : String)
    (selected_tables : List String) (selected_db : String)
    (timestamp : String) : SessionState :=
  let generated_sql := mock_llm_query text_query selected_tables selected_db
  { generated_sql := generated_sql,
    query_results := none,
    query_history := st.query_history ++
      [{ timestamp := timestamp, question := text_query,
         sql := generated_sql, tables := selected_tables }] }

/-- The "Clear All" button handler (lines 268-271): empty the SQL and the
results; the history is not touched. -/
def clearAction (st : SessionState) : SessionState :=
  { st with generated_sql := "", query_results := none }

/-- The fixed count-query string of the generator's first rule. -/
def countUsersSQL : String :=
  "SELECT COUNT(*) as total_users FROM users WHERE is_active = TRUE;"

/-- The generic fallback sample table of the executor. -/
def defaultSampleDF : DataFrame :=
  ⟨[("id", [.i 1, .i 2, .i 3, .i 4, .i 5]),
    ("sample_column", [.s "Data 1", .s "Data 2", .s "Data 3", .s "Data 4", .s "Data 5"]),
    ("value", [.i 100, .i 200, .i 300, .i 400, .i 500])]⟩

/-- The executor's 5-row users sample table (the bare-`users` rule). -/
def usersSampleDF : DataFrame :=
  ⟨[("id", [.i 1, .i 2, .i 3, .i 4, .i 5]),
    ("username", [.s "alice_j", .s "bob_smith", .s "carol_b", .s "david_w", .s "emma_d"]),
    ("email", [.s "alice@email.com", .s "bob@email.com", .s "carol@email.com",
               .s "david@email.com", .s "emma@email.com"]),
    ("created_at", [.s "2024-01-15", .s "2024-02-20", .s "2024-03-10",
                    .s "2024-04-05", .s "2024-05-12"]),
    ("is_active", [.b true, .b true, .b false, .b true, .b true])]⟩

/-- C1: the spec's example claims the question "How many users do we have?"
triggers the count rule, but its lowercased form contains no substring
"count", so the generator takes the fallback branch instead of returning
the fixed count-query string. -/
theorem C1_counterexample :
    mock_llm_query "How many users do we have?" ["users"] "ecommerce_db" ≠ countUsersSQL ∧
    mock_llm_query "How many users do we have?" ["users"] "ecommerce_db" =
      "SELECT * FROM users LIMIT 10;" :=
  ⟨by decide, by decide⟩

/-- C1 (amended): for the question "How many users do we have?" with
selected tables ["users"] and database "ecommerce_db", `mock_llm_query`
returns the fallback "SELECT * FROM users LIMIT 10;", and executing that
SQL with `mock_execute_query` yields the 5-row, 5-column users sample
table (not the single-value count table). -/
theorem C1_amended :
    mock_llm_query "How many users do we have?" ["users"] "ecommerce_db" =
      "SELECT * FROM users LIMIT 10;" ∧
    mock_execute_query "SELECT * FROM users LIMIT 10;" "ecommerce_db" = usersSampleDF ∧
    (mock_execute_query "SELECT * FROM users LIMIT 10;" "ecommerce_db").numRows = 5 ∧
    (mock_execute_query "SELECT * FROM users LIMIT 10;" "ecommerce_db").numCols = 5 :=
  ⟨by decide, by decide, by decide, by decide⟩

/-- C2: whenever the lowercased question contains both "users" and
"count", `mock_llm_query` returns exactly the fixed count-query string,
for every table selection and database — the first rule wins. -/
theorem C2_users_count_rule (q : String) (ts : List String) (db : String)
    (h1 : strContains (pyLower q) "users" = true)
    (h2 : strContains (pyLower q) "count" = true) :
    mock_llm_query q ts db = countUsersSQL := by
  simp [mock_llm_query, countUsersSQL, h1, h2]

/-- C2 witness: a concrete question containing both keywords (and also the
"orders"/"total" pair) still yields the count string, over an unrelated
table selection and database. -/
theorem C2_witness :
    strContains (pyLower "Count the total USERS with orders") "users" = true ∧
    strContains (pyLower "Count the total USERS with orders") "count" = true ∧
    mock_llm_query "Count the total USERS with orders" ["departments"] "hr_system" =
      countUsersSQL :=
  ⟨by decide, by decide,
    C2_users_count_rule "Count the total USERS with orders" ["departments"] "hr_system"
      (by decide) (by decide)⟩

/-- C3: when the lowercased question matches none of the four keyword
pairs, `mock_llm_query` returns "SELECT * FROM <t> LIMIT 10;" with <t> the
first selected table, or the literal "table_name" for an empty
selection. -/
theorem C3_fallback (q : String) (ts : List String) (db : String)
    (h1 : (strContains (pyLower q) "users" && strContains (pyLower q) "count") = false)
    (h2 : (strContains (pyLower q) "products" && strContains (pyLower q) "price") = false)
    (h3 : (strContains (pyLower q) "orders" && strContains (pyLower q) "total") = false)
    (h4 : (strContains (pyLower q) "employees" && strContains (pyLower q) "salary") = false) :
    (ts = [] → mock_llm_query q ts db = "SELECT * FROM table_name LIMIT 10;") ∧
    (∀ t rest, ts = t :: rest →
      mock_llm_query q ts db = "SELECT * FROM " ++ t ++ " LIMIT 10;") := by
  constructor
  · intro hts
    subst hts
    simp [mock_llm_query, h1, h2, h3, h4]
  · intro t rest hts
    subst hts
    simp [mock_llm_query, h1, h2, h3, h4]

/-- C3 witness: a concrete keyword-free question over a one-table
selection yields the fallback referencing that table. -/
theorem C3_witness :
    mock_llm_query "show me everything" ["categories"] "ecommerce_db" =
      "SELECT * FROM categories LIMIT 10;" :=
  (C3_fallback "show me everything" ["categories"] "ecommerce_db"
    (by decide) (by decide) (by decide) (by decide)).2 "categories" [] rfl

/-- C4: on every input — the empty table list included — the generator's
only potentially raising operation (the `selected_tables[0]` subscript) is
guarded, so `mock_llm_queryE` always returns `ok` of the pure result; the
executor's body is all literals, so `mock_execute_queryE` always returns
`ok` as well. Hence the try/except error branches are unreachable. -/
theorem C4_no_exceptions (q : String) (ts : List String) (db : String)
    (sql : String) (db2 : String) :
    mock_llm_queryE q ts db = Except.ok (mock_llm_query q ts db) ∧
    mock_execute_queryE sql db2 = Except.ok (mock_execute_query sql db2) := by
  refine ⟨?_, rfl⟩
  simp only [mock_llm_queryE, mock_llm_query]
  cases ts with
  | nil => repeat' split
           all_goals simp_all [pySubscript, Except.map]
  | cons t rest => repeat' split
                   all_goals simp_all [pySubscript, Except.map]

/-- C5: `mock_execute_query` is a pure function of the lowercased SQL
string alone: agreeing lowercased SQL gives identical result tables,
whatever the database arguments. -/
theorem C5_executor_pure (sql1 sql2 db1 db2 : String)
    (h : pyLower sql1 = pyLower sql2) :
    mock_execute_query sql1 db1 = mock_execute_query sql2 db2 := by
  simp only [mock_execute_query]
  rw [h]

/-- C5 witness: the same SQL up to case, executed against two different
databases, yields the same table. -/
theorem C5_witness :
    pyLower "SELECT 1;" = pyLower "select 1;" ∧
    mock_execute_query "SELECT 1;" "ecommerce_db" =
      mock_execute_query "select 1;" "hr_system" :=
  ⟨by decide, C5_executor_pure "SELECT 1;" "select 1;" "ecommerce_db" "hr_system" (by decide)⟩

/-- C6: from every session state, "clear" empties the generated SQL and
the stored results and leaves the query history exactly unchanged. -/
theorem C6_clear_frame (st : SessionState) :
    (clearAction st).generated_sql = "" ∧
    (clearAction st).query_results = none ∧
    (clearAction st).query_history = st.query_history :=
  ⟨rfl, rfl, rfl⟩

/-- C7: from every session state, "generate" appends exactly one record
to the history — the old history is an unchanged prefix — and the new
record's table list is the snapshot of the selection at that moment (the
embedding's immutable lists make a stored snapshot unaffected by any
later change of the selection). -/
theorem C7_generate_appends (st : SessionState) (q : String) (ts : List String)
    (db tstamp : String) :
    (generateAction st q ts db tstamp).query_history.length =
      st.query_history.length + 1 ∧
    ∃ e : HistoryEntry,
      (generateAction st q ts db tstamp).query_history = st.query_history ++ [e] ∧
      e.tables = ts ∧ e.question = q ∧ e.sql = mock_llm_query q ts db :=
  ⟨by simp [generateAction], _, rfl, rfl, rfl, rfl⟩

/-- C8: when the lowercased SQL matches none of the executor's five
substring rules, `mock_execute_query` returns the generic 5-row sample
table, for every database. -/
theorem C8_executor_fallback (sql db : String)
    (h1 : (strContains (pyLower sql) "count(*)" &&
      strContains (pyLower sql) "users") = false)
    (h2 : (strContains (pyLower sql) "name, price" &&
      strContains (pyLower sql) "products") = false)
    (h3 : (strContains (pyLower sql) "sum(total_amount)" &&
      strContains (pyLower sql) "orders") = false)
    (h4 : (strContains (pyLower sql) "first_name, last_name, salary" &&
      strContains (pyLower sql) "employees") = false)
    (h5 : strContains (pyLower sql) "users" = false) :
    mock_execute_query sql db = defaultSampleDF := by
  simp [mock_execute_query, defaultSampleDF, h1, h2, h3, h4, h5]

/-- C8 witness: a concrete SQL string matching no rule yields the generic
sample table. -/
theorem C8_witness :
    mock_execute_query "SELECT id FROM categories;" "ecommerce_db" = defaultSampleDF :=
  C8_executor_fallback "SELECT id FROM categories;" "ecommerce_db"
    (by decide) (by decide) (by decide) (by decide) (by decide)

/-- C9: every "generate" step resets the stored results to none in the
same transition that stores the newly generated SQL. -/
theorem C9_generate_resets_results (st : SessionState) (q : String)
    (ts : List String) (db tstamp : String) :
    (generateAction st q ts db tstamp).query_results = none ∧
    (generateAction st q ts db tstamp).generated_sql = mock_llm_query q ts db :=
  ⟨rfl, rfl⟩

/-- C10: the generator's output depends only on the lowercased question
and on the head (hence also the emptiness) of the table selection; the
database argument and the tables after the first are never read. -/
theorem C10_generator_noninterference (q1 q2 : String) (ts1 ts2 : List String)
    (db1 db2 : String) (hq : pyLower q1 = pyLower q2)
    (ht : ts1.head? = ts2.head?) :
    mock_llm_query q1 ts1 db1 = mock_llm_query q2 ts2 db2 := by
  simp only [mock_llm_query]
  rw [hq, ht]

/-- C10 witness: questions equal up to case, selections agreeing on their
first table only, and different databases give the same output. -/
theorem C10_witness :
    pyLower "Hello" = pyLower "hELLO" ∧
    (["users", "orders"] : List String).head? = (["users"] : List String).head? ∧
    mock_llm_query "Hello" ["users", "orders"] "ecommerce_db" =
      mock_llm_query "hELLO" ["users"] "hr_system" :=
  ⟨by decide, rfl,
    C10_generator_noninterference "Hello" "hELLO" ["users", "orders"] ["users"]
      "ecommerce_db" "hr_system" (by decide) rfl⟩
